import Mathlib

/-!
Shallow embedding of the trade-event decoding and order-execution pipeline of
a Solana sniper bot, together with proofs of the specification's claims.

Conventions of the embedding:
* Rust `u64` / `u128` values are modelled as `Nat`; wherever the source
  truncates (an `as u64` cast) the embedding applies `% 2^64` explicitly, and
  the saturating `u128` operations are modelled as `min` with `2^128 - 1`.
* Rust `f64` values are modelled as exact rationals (`ℚ`); an `as u64` cast
  of a float is modelled as truncation toward zero clamped to the `u64`
  range, which is the Rust cast semantics.
* Fallible Rust functions returning `Result`/`Option` are modelled as
  `Except String` / `Option`; network effects (RPC reads, channel
  submissions) are modelled as explicit oracle arguments carrying the
  outcome the environment would produce.
* Concurrent global maps (`TOKEN_HOLDINGS`, `SELL_REASONS`) are modelled as
  association lists / key lists passed in explicitly; a function that reads
  the map twice reads the same snapshot, which is the sequential semantics
  of the source.
-/

namespace Sniper

/-- `u64::MAX` as a natural number. -/
def U64_MAX : Nat := 2 ^ 64 - 1

/-- `u128::MAX` as a natural number. -/
def U128_MAX : Nat := 2 ^ 128 - 1

/-- Rust `u128::saturating_mul`. -/
def satMul128 (a b : Nat) : Nat := min (a * b) U128_MAX

/-- Rust `u128::saturating_add`. -/
def satAdd128 (a b : Nat) : Nat := min (a + b) U128_MAX

/-- Rust `as u64` truncating cast from an unbounded natural (u128) value. -/
def castU64 (n : Nat) : Nat := n % 2 ^ 64

/-- Rust `f64 as u64` cast: truncation toward zero, saturating into the
`u64` range (negative values clamp to 0). -/
def f64ToU64 (q : ℚ) : Nat := min (Int.toNat ⌊q⌋) U64_MAX

/-- spl_token's `ui_amount_to_amount(ui_amount, decimals)`:
`(ui_amount * 10_f64.powi(decimals)) as u64`. -/
def ui_amount_to_amount (ui_amount : ℚ) (decimals : Nat) : Nat :=
  f64ToU64 (ui_amount * 10 ^ decimals)

/-! ## Curve calculator: src/dex/pump_fun.rs -/

/-- `Pump::PUMP_BUY_METHOD` discriminator (src/dex/pump_fun.rs line 37). -/
def PUMP_BUY_METHOD : Nat := 16927863322537952870

/-- `Pump::PUMP_SELL_METHOD` discriminator (src/dex/pump_fun.rs line 38). -/
def PUMP_SELL_METHOD : Nat := 12502976635542562355

/-- `TEN_THOUSAND` (src/dex/pump_fun.rs line 25). -/
def TEN_THOUSAND : Nat := 10000

/-- `Pump::calculate_buy_token_amount` (src/dex/pump_fun.rs lines 78-101):
zero-guards, then `sol_in * virtual_token` over `virtual_sol + sol_in` in
saturating 128-bit arithmetic, quotient cast back to `u64`. -/
def calculate_buy_token_amount
    (sol_amount_in virtual_sol_reserves virtual_token_reserves : Nat) : Nat :=
  if sol_amount_in = 0 ∨ virtual_sol_reserves = 0 ∨ virtual_token_reserves = 0 then 0
  else
    let numerator := satMul128 sol_amount_in virtual_token_reserves
    let denominator := satAdd128 virtual_sol_reserves sol_amount_in
    if denominator = 0 then 0
    else castU64 (numerator / denominator)

/-- `Pump::calculate_sell_sol_amount` (src/dex/pump_fun.rs lines 104-127). -/
def calculate_sell_sol_amount
    (token_amount_in virtual_sol_reserves virtual_token_reserves : Nat) : Nat :=
  if token_amount_in = 0 ∨ virtual_sol_reserves = 0 ∨ virtual_token_reserves = 0 then 0
  else
    let numerator := satMul128 token_amount_in virtual_sol_reserves
    let denominator := satAdd128 virtual_token_reserves token_amount_in
    if denominator = 0 then 0
    else castU64 (numerator / denominator)

/-- `Pump::calculate_price_from_virtual_reserves`
(src/dex/pump_fun.rs lines 130-141); the `f64` arithmetic is modelled
exactly over `ℚ`. -/
def calculate_price_from_virtual_reserves
    (virtual_sol_reserves virtual_token_reserves : Nat) : ℚ :=
  if virtual_token_reserves = 0 then 0
  else (virtual_sol_reserves : ℚ) / (virtual_token_reserves : ℚ) / 1000

/-- `max_amount_with_slippage` (src/dex/pump_fun.rs lines 576-582):
`input * (slippage_bps + 10000) / 10000`. -/
def max_amount_with_slippage (input_amount slippage_bps : Nat) : Nat :=
  input_amount * (slippage_bps + TEN_THOUSAND) / TEN_THOUSAND


/-! ## Wire decoder: src/engine/transaction_parser.rs -/

/-- A byte of the raw event buffer. -/
abbrev Byte := Fin 256

/-- The base58 alphabet used by `bs58::encode`. -/
def BASE58_ALPHABET : List Char :=
  "123456789ABCDEFGHJKLMNPQRSTUVWXYZabcdefghijkmnopqrstuvwxyz".toList

/-- Base-58 digits of `n`, least significant first. -/
def natToB58DigitsRev (n : Nat) : List Nat :=
  if h : n = 0 then [] else n % 58 :: natToB58DigitsRev (n / 58)
decreasing_by exact Nat.div_lt_self (Nat.pos_of_ne_zero h) (by norm_num)

/-- `bs58::encode(bytes).into_string()`: leading zero bytes map to leading
`1` characters, the remainder is the big-endian value in base 58. -/
def bs58Encode (bs : List Byte) : String :=
  let zeros := (bs.takeWhile (fun b => b.val == 0)).length
  let n := bs.foldl (fun acc b => acc * 256 + b.val) 0
  let digits := (natToB58DigitsRev n).reverse
  String.mk (List.replicate zeros '1' ++ digits.map (fun d => BASE58_ALPHABET.getD d '1'))

/-- One entry of `meta.post_token_balances`; only the mint is read. -/
structure TokenBalance where
  mint : String
deriving DecidableEq

/-- The part of the transaction metadata the parser reads. -/
structure TxnMeta where
  log_messages : List String
  post_token_balances : List TokenBalance
deriving DecidableEq

/-- `txn.transaction`, whose `meta` is optional. -/
structure TxnInner where
  meta : Option TxnMeta
deriving DecidableEq

/-- The slice of `SubscribeUpdateTransaction` consumed by the parser. -/
structure SubscribeUpdateTransaction where
  slot : Nat
  transaction : Option TxnInner
deriving DecidableEq

/-- Rust `str::contains` on char lists: some suffix starts with `p`. -/
def hasSubstringList (p : List Char) : List Char → Bool
  | [] => p.isEmpty
  | c :: rest => p.isPrefixOf (c :: rest) || hasSubstringList p rest

/-- Rust `log.contains(pat)`. -/
def strContains (s pat : String) : Bool :=
  hasSubstringList pat.toList s.toList

/-- `has_buy_instruction` (src/engine/transaction_parser.rs lines 58-67). -/
def has_buy_instruction (txn : SubscribeUpdateTransaction) : Bool :=
  match txn.transaction with
  | some tx_inner =>
    match tx_inner.meta with
    | some meta => meta.log_messages.any (fun log => strContains log "Instruction: Buy")
    | none => false
  | none => false

/-- `has_sell_instruction` (src/engine/transaction_parser.rs lines 70-79). -/
def has_sell_instruction (txn : SubscribeUpdateTransaction) : Bool :=
  match txn.transaction with
  | some tx_inner =>
    match tx_inner.meta with
    | some meta => meta.log_messages.any (fun log => strContains log "Instruction: Sell")
    | none => false
  | none => false

/-- `DexType` (src/engine/transaction_parser.rs lines 15-19). -/
inductive DexType
  | PumpSwap
  | PumpFun
  | Unknown
deriving DecidableEq

/-- `TradeInfoFromToken` (src/engine/transaction_parser.rs lines 22-43);
`f64` fields are modelled as `ℚ`. -/
structure TradeInfoFromToken where
  dex_type : DexType
  slot : Nat
  signature : String
  pool_id : String
  mint : String
  timestamp : Nat
  is_buy : Bool
  post_current_price : ℚ
  pre_current_price : ℚ
  is_reverse_when_pump_swap : Bool
  coin_creator : Option String
  sol_change : ℚ
  target_transaction_token_change : ℚ
  liquidity : ℚ
  virtual_sol_reserves : Nat
  virtual_token_reserves : Nat
  buy_sell_in_same_tx : Bool
deriving DecidableEq

/-- `parse_public_key` (src/engine/transaction_parser.rs lines 85-90):
a 32-byte read, `None` when the range exceeds the buffer. -/
def parse_public_key (buffer : List Byte) (offset : Nat) : Option String :=
  if offset + 32 > buffer.length then none
  else some (bs58Encode ((buffer.drop offset).take 32))

/-- `u64::from_le_bytes`. -/
def u64FromLeBytes (bs : List Byte) : Nat :=
  bs.foldr (fun b acc => acc * 256 + b.val) 0

/-- `parse_u64` (src/engine/transaction_parser.rs lines 92-99):
an 8-byte little-endian read, `None` when the range exceeds the buffer. -/
def parse_u64 (buffer : List Byte) (offset : Nat) : Option Nat :=
  if offset + 8 > buffer.length then none
  else some (u64FromLeBytes ((buffer.drop offset).take 8))

/-- `WSOL` mint literal used by `extract_token_info`. -/
def WSOL_MINT : String := "So11111111111111111111111111111111111111112"

/-- Default mint substituted when metadata has no usable token balance. -/
def DEFAULT_MINT : String := "2ivzYvjnKqA4X3dVvPKr7bctGpbxwrXbbxm44TJCpump"

/-- `extract_token_info` (src/engine/transaction_parser.rs lines 102-135):
first post-token-balance mint, skipping up to two leading WSOL entries,
falling back to a well-known default. -/
def extract_token_info (txn : SubscribeUpdateTransaction) : String :=
  let mint :=
    match txn.transaction with
    | none => ""
    | some tx_inner =>
      match tx_inner.meta with
      | none => ""
      | some meta =>
        match meta.post_token_balances with
        | [] => ""
        | b0 :: rest =>
          if b0.mint = WSOL_MINT then
            match rest with
            | [] => b0.mint
            | b1 :: rest2 =>
              if b1.mint = WSOL_MINT then
                match rest2 with
                | [] => b1.mint
                | b2 :: _ => b2.mint
              else b1.mint
          else b0.mint
  if mint = "" then DEFAULT_MINT else mint

/-- `parse_transaction_data` (src/engine/transaction_parser.rs lines
82-306): dispatch on buffer length — 368/416 is the pooled-liquidity
(PumpSwap) family, 274/275 the bonding-curve (PumpFun) family, anything
else decodes to `none`. -/
def parse_transaction_data (txn : SubscribeUpdateTransaction) (buffer : List Byte) :
    Option TradeInfoFromToken :=
  let slot := txn.slot
  if buffer.length = 368 ∨ buffer.length = 416 then do
    let mint := extract_token_info txn
    let timestamp ← parse_u64 buffer 16
    let base_amount_in_or_base_amount_out ← parse_u64 buffer 24
    let pool_base_token_reserves ← parse_u64 buffer 56
    let pool_quote_token_reserves ← parse_u64 buffer 64
    let quote_amount_out ← parse_u64 buffer 72
    let pool_id ← parse_public_key buffer 128
    let coin_creator ← parse_public_key buffer 320
    let is_reverse_when_pump_swap := coin_creator = "11111111111111111111111111111111"
    let post_current_price : ℚ :=
      if pool_base_token_reserves > 0 ∧ pool_quote_token_reserves > 0 then
        if is_reverse_when_pump_swap then
          (pool_base_token_reserves : ℚ) / (pool_quote_token_reserves : ℚ) / 1000
        else
          (pool_quote_token_reserves : ℚ) / (pool_base_token_reserves : ℚ) / 1000
      else 0
    let pre_current_price : ℚ :=
      if base_amount_in_or_base_amount_out > 0 ∧ quote_amount_out > 0 then
        if is_reverse_when_pump_swap then
          (base_amount_in_or_base_amount_out : ℚ) / (quote_amount_out : ℚ) / 1000
        else
          (quote_amount_out : ℚ) / (base_amount_in_or_base_amount_out : ℚ) / 1000
      else 0
    let is_buy :=
      if is_reverse_when_pump_swap then has_sell_instruction txn
      else has_buy_instruction txn
    let sol_token_change : ℚ × ℚ :=
      if is_reverse_when_pump_swap then
        if is_buy then
          ((base_amount_in_or_base_amount_out : ℚ) / 1000000000,
            (quote_amount_out : ℚ) / 1000000000)
        else
          (-(base_amount_in_or_base_amount_out : ℚ) / 1000000000,
            -(quote_amount_out : ℚ) / 1000000000)
      else
        if is_buy then
          ((quote_amount_out : ℚ) / 1000000000,
            (base_amount_in_or_base_amount_out : ℚ) / 1000000000)
        else
          (-(quote_amount_out : ℚ) / 1000000000,
            -(base_amount_in_or_base_amount_out : ℚ) / 1000000000)
    let liquidity : ℚ :=
      if ¬ is_reverse_when_pump_swap then (pool_quote_token_reserves : ℚ) / 1000000000
      else (pool_base_token_reserves : ℚ) / 1000000000
    some
      { dex_type := DexType.PumpSwap
        slot := 0
        signature := ""
        pool_id := pool_id
        mint := mint
        timestamp := timestamp
        is_buy := is_buy
        post_current_price := post_current_price
        pre_current_price := pre_current_price
        is_reverse_when_pump_swap := is_reverse_when_pump_swap
        coin_creator := some coin_creator
        sol_change := sol_token_change.1
        target_transaction_token_change := sol_token_change.2
        liquidity := liquidity
        virtual_sol_reserves := pool_quote_token_reserves
        virtual_token_reserves := pool_base_token_reserves
        buy_sell_in_same_tx := false }
  else if buffer.length = 274 ∨ buffer.length = 275 then do
    let mint ← parse_public_key buffer 16
    let sol_amount ← parse_u64 buffer 48
    let token_amount ← parse_u64 buffer 56
    let flag ← buffer.get? 64
    let is_buy := flag = (1 : Byte)
    let timestamp ← parse_u64 buffer 97
    let virtual_sol_reserves ← parse_u64 buffer 105
    let virtual_token_reserves ← parse_u64 buffer 113
    let real_sol_reserves ← parse_u64 buffer 121
    let creator ← parse_public_key buffer 185
    let mixed_buy_sell := has_buy_instruction txn && has_sell_instruction txn
    let post_current_price :=
      calculate_price_from_virtual_reserves virtual_sol_reserves virtual_token_reserves
    let pre_current_price : ℚ :=
      if token_amount = 0 then 0
      else (sol_amount : ℚ) / (token_amount : ℚ) / 1000
    let liquidity : ℚ := (real_sol_reserves : ℚ) / 1000000000
    let sol_change : ℚ :=
      if is_buy then (sol_amount : ℚ) / 1000000000
      else -((sol_amount : ℚ)) / 1000000000
    some
      { dex_type := DexType.PumpFun
        slot := slot
        signature := ""
        pool_id := ""
        mint := mint
        timestamp := timestamp
        is_buy := is_buy
        post_current_price := post_current_price
        pre_current_price := pre_current_price
        is_reverse_when_pump_swap := false
        coin_creator := some creator
        sol_change := sol_change
        target_transaction_token_change := (token_amount : ℚ) / 1000000
        liquidity := liquidity
        virtual_sol_reserves := virtual_sol_reserves
        virtual_token_reserves := virtual_token_reserves
        buy_sell_in_same_tx := mixed_buy_sell }
  else none

/-! ## Instruction builder: src/dex/pump_fun.rs `build_swap_from_parsed_data`

Program-derived addresses, associated-token-account addresses and pubkey
parsing are address bookkeeping with no bearing on any claim; addresses are
modelled as opaque strings and `Pubkey::from_str` as total. The RPC
balance read of the sell path is an explicit oracle argument. -/

/-- `SwapDirection` (src/engine/swap.rs, used at src/dex/pump_fun.rs 178). -/
inductive SwapDirection
  | Buy
  | Sell
deriving DecidableEq

/-- `SwapInType` (src/engine/swap.rs, used at src/dex/pump_fun.rs 296). -/
inductive SwapInType
  | Qty
  | Pct
deriving DecidableEq

/-- `SwapConfig` (src/common/config.rs lines 206-212). -/
structure SwapConfig where
  swap_direction : SwapDirection
  in_type : SwapInType
  amount_in : ℚ
  buy_slippage : Nat
  reverse : Bool
deriving DecidableEq

/-- The two instruction shapes the builder can emit: the idempotent
associated-token-account creation and the venue swap instruction carrying
`(pump_method, token_amount, sol_amount_threshold)`
(src/dex/pump_fun.rs lines 210-215 and 413-417). -/
inductive Instruction
  | createAssociatedTokenAccountIdempotent (owner mint : String)
  | pumpSwap (pump_method token_amount sol_amount_threshold : Nat)
deriving DecidableEq

/-- The builder's signer; only its pubkey is observable. -/
structure Pump where
  owner : String
deriving DecidableEq

/-- Outcome of `rpc_nonblocking_client.get_token_account(&ata)`:
`okSome none` models an account whose amount string fails `u64` parsing. -/
inductive RpcTokenAccount
  | okSome (parsed_amount : Option Nat)
  | okNone
  | err (msg : String)
deriving DecidableEq

/-- The sell quantity computed from a cached `TOKEN_HOLDINGS` balance
(src/dex/pump_fun.rs lines 287-305, repeated verbatim at 335-347 and
356-368): raw amount is the cached UI balance scaled by `10^6`, then the
configured quantity or percentage (clamped to 1, floored, at least 1). -/
def sell_amount_from_cached (cached_balance : ℚ) (swap_config : SwapConfig) : Nat :=
  let raw_amount := f64ToU64 (cached_balance * 10 ^ 6)
  match swap_config.in_type with
  | SwapInType.Qty => ui_amount_to_amount swap_config.amount_in 6
  | SwapInType.Pct =>
    let percentage := min swap_config.amount_in 1
    max (f64ToU64 (percentage * (raw_amount : ℚ))) 1

/-- The sell quantity computed from a live RPC balance
(src/dex/pump_fun.rs lines 315-326). -/
def sell_amount_from_rpc (amount_value : Nat) (swap_config : SwapConfig) : Nat :=
  match swap_config.in_type with
  | SwapInType.Qty => ui_amount_to_amount swap_config.amount_in 6
  | SwapInType.Pct =>
    let percentage := min swap_config.amount_in 1
    max (f64ToU64 (percentage * (amount_value : ℚ))) 1

/-- The sell arm's `actual_token_amount` resolution
(src/dex/pump_fun.rs lines 282-375): cached holding first, then the live
RPC read, then a second cache read when the RPC read reports
account-not-found or errors. -/
def resolve_sell_token_amount (token_holdings : List (String × ℚ))
    (rpc : RpcTokenAccount) (mint_str : String) (swap_config : SwapConfig) :
    Except String Nat :=
  match token_holdings.lookup mint_str with
  | some cached_balance => .ok (sell_amount_from_cached cached_balance swap_config)
  | none =>
    match rpc with
    | .okSome (some amount_value) => .ok (sell_amount_from_rpc amount_value swap_config)
    | .okSome none => .error "Failed to parse token amount"
    | .okNone =>
      match token_holdings.lookup mint_str with
      | some cached_balance => .ok (sell_amount_from_cached cached_balance swap_config)
      | none => .error ("Token account does not exist for mint " ++ mint_str
          ++ " and not in TOKEN_HOLDINGS")
    | .err e =>
      match token_holdings.lookup mint_str with
      | some cached_balance => .ok (sell_amount_from_cached cached_balance swap_config)
      | none => .error ("Failed to get token account balance: " ++ e
          ++ " and not in TOKEN_HOLDINGS")

/-- `Pump::build_swap_from_parsed_data` (src/dex/pump_fun.rs lines
144-438). The dex-type mismatch only logs (the early return is commented
out in the source); the buy arm emits the idempotent create-account
instruction unconditionally; a missing coin creator is a hard error; the
sell threshold is the fixed floor 1; the swap instruction is appended only
for a positive amount and an empty final list is an error. -/
def build_swap_from_parsed_data (pump : Pump) (trade_info : TradeInfoFromToken)
    (swap_config : SwapConfig) (token_holdings : List (String × ℚ))
    (rpc : RpcTokenAccount) : Except String (List Instruction × ℚ) :=
  let owner := pump.owner
  let mint_str := trade_info.mint
  let price_in_sol := trade_info.post_current_price
  let create_instruction : Option Instruction :=
    if swap_config.swap_direction = SwapDirection.Buy then
      some (Instruction.createAssociatedTokenAccountIdempotent owner mint_str)
    else none
  match trade_info.coin_creator with
  | none => .error "Coin creator not found in trade info"
  | some _creator =>
    let amountResult : Except String (Nat × Nat) :=
      match swap_config.swap_direction with
      | SwapDirection.Buy =>
        let amount_specified := ui_amount_to_amount swap_config.amount_in 9
        let max_sol_cost :=
          max_amount_with_slippage amount_specified swap_config.buy_slippage
        let tokens_out := calculate_buy_token_amount amount_specified
          trade_info.virtual_sol_reserves trade_info.virtual_token_reserves
        .ok (tokens_out, max_sol_cost)
      | SwapDirection.Sell =>
        match resolve_sell_token_amount token_holdings rpc mint_str swap_config with
        | .error e => .error e
        | .ok actual_token_amount => .ok (actual_token_amount, 1)
    match amountResult with
    | .error e => .error e
    | .ok (token_amount, sol_amount_threshold) =>
      let pump_method :=
        match swap_config.swap_direction with
        | SwapDirection.Buy => PUMP_BUY_METHOD
        | SwapDirection.Sell => PUMP_SELL_METHOD
      let swap_instruction :=
        Instruction.pumpSwap pump_method token_amount sol_amount_threshold
      let instructions :=
        (match create_instruction with
          | some ci => [ci]
          | none => []) ++
        (if token_amount > 0 then [swap_instruction] else [])
      if instructions.isEmpty then .error "Instructions is empty, no txn required."
      else .ok (instructions, price_in_sol)

/-! ## Landing engine: src/engine/transaction_retry.rs

Blockhash lookup, the zeroslot channel submission, the Jupiter quote and
the Jupiter swap submission are network effects, modelled as oracle
arguments; signature strings are opaque (their re-parsing, a pure format
check, is modelled as total). The `PROGRESS_ON_SELLING` insertion is not
observable by any claim and is omitted. Alongside its result,
`execute_pumpfun_sell` returns the list of instructions that were built,
so that "no instruction constructed" is a statement of the model. -/

/-- `MAX_RETRIES` (src/engine/transaction_retry.rs line 27). -/
def MAX_RETRIES : Nat := 3

/-- `SellTransactionResult` (src/engine/transaction_retry.rs lines 31-37). -/
structure SellTransactionResult where
  success : Bool
  signature : Option String
  error : Option String
  used_jupiter_fallback : Bool
  attempt_count : Nat
deriving DecidableEq

/-- The global sell-side state read by the landing engine:
`SELL_REASONS` pending-sell markers and `TOKEN_HOLDINGS` cached balances
(declared in src/engine/sniper.rs, read here). -/
structure AppSellState where
  sell_reasons : List String
  token_holdings : List (String × ℚ)
deriving DecidableEq

/-- Environment outcomes consumed by `execute_pumpfun_sell`: the build's
RPC balance read, the cached-blockhash lookup and the zeroslot send. -/
structure ZeroSlotOracles where
  rpc_token_account : RpcTokenAccount
  blockhash : Option Nat
  send_result : Except String (List String)

/-- `execute_pumpfun_sell` (src/engine/transaction_retry.rs lines 40-110):
`SELL_REASONS` gate, dex-type gate, build, blockhash, zeroslot send,
first-signature extraction, estimated received SOL. -/
def execute_pumpfun_sell (pump : Pump) (trade_info : TradeInfoFromToken)
    (sell_config : SwapConfig) (st : AppSellState) (o : ZeroSlotOracles) :
    Except String (String × ℚ × ℚ) × List Instruction :=
  if st.sell_reasons.contains trade_info.mint then
    if trade_info.dex_type ≠ DexType.PumpFun then
      (.error "Not a PumpFun token", [])
    else
      match build_swap_from_parsed_data pump trade_info sell_config
          st.token_holdings o.rpc_token_account with
      | .error e => (.error ("PumpFun build_swap_from_parsed_data failed: " ++ e), [])
      | .ok (instructions, price) =>
        match o.blockhash with
        | none => (.error "Failed to get real-time blockhash", instructions)
        | some _bh =>
          match o.send_result with
          | .error e => (.error ("PumpFun transaction send failed: " ++ e), instructions)
          | .ok signatures =>
            match signatures with
            | [] => (.error "No transaction signature returned", instructions)
            | sig :: _ =>
              let received_sol :=
                match st.token_holdings.lookup trade_info.mint with
                | some bought => bought * price
                | none => price
              (.ok (sig, received_sol, price), instructions)
  else
    (.error "Sell reason not set - skipping transaction building", [])

/-- `execute_normal_sell_with_retry` (src/engine/transaction_retry.rs
lines 113-144): a single PumpFun attempt, no retry loop. -/
def execute_normal_sell_with_retry (pump : Pump) (trade_info : TradeInfoFromToken)
    (sell_config : SwapConfig) (st : AppSellState) (o : ZeroSlotOracles) :
    Except String SellTransactionResult × List Instruction :=
  if trade_info.dex_type ≠ DexType.PumpFun then
    (.error "Not a PumpFun token - skipping normal sell", [])
  else
    match execute_pumpfun_sell pump trade_info sell_config st o with
    | (.ok (sig, _received_sol, _price), instrs) =>
      (.ok { success := true, signature := some sig, error := none,
             used_jupiter_fallback := false, attempt_count := 1 }, instrs)
    | (.error e, instrs) => (.error ("PumpFun sell failed: " ++ e), instrs)

/-- Environment outcomes consumed by `execute_jupiter_sell`: the RPC
balance read, the Jupiter quote (with its parsed `out_amount`, `none`
modelling an unparsable amount) and the Jupiter swap submission. -/
structure JupiterOracles where
  rpc_token_account : RpcTokenAccount
  quote_out_amount : Except String (Option Nat)
  sell_result : Except String String

/-- `execute_jupiter_sell` (src/engine/transaction_retry.rs lines
217-325): `SELL_REASONS` gate, cached-holdings-first quantity, zero-amount
guard, percentage application, quote, dust guard, swap submission. -/
def execute_jupiter_sell (trade_info : TradeInfoFromToken)
    (sell_config : SwapConfig) (st : AppSellState) (o : JupiterOracles) :
    Except String (String × ℚ × ℚ) :=
  if st.sell_reasons.contains trade_info.mint then
    let token_amountE : Except String Nat :=
      match st.token_holdings.lookup trade_info.mint with
      | some bought => .ok (f64ToU64 (bought * 10 ^ 6))
      | none =>
        match o.rpc_token_account with
        | .okSome (some v) => .ok v
        | .okSome none => .error "Failed to parse token amount"
        | .okNone => .error "Token account not found"
        | .err e => .error ("Failed to get token account: " ++ e)
    match token_amountE with
    | .error e => .error e
    | .ok token_amount =>
      if token_amount = 0 then .error "No tokens to sell"
      else
        let amount_to_sell :=
          if 1 ≤ sell_config.amount_in then token_amount
          else f64ToU64 ((token_amount : ℚ) * sell_config.amount_in)
        match o.quote_out_amount with
        | .error e => .error ("Jupiter quote failed: " ++ e)
        | .ok none => .error "Failed to parse output amount"
        | .ok (some out_raw) =>
          let expected_sol : ℚ := (out_raw : ℚ) / 1000000000
          if expected_sol < 1 / 10000 then
            .error "Expected SOL output too small"
          else
            match o.sell_result with
            | .error e => .error ("Jupiter API sell failed: " ++ e)
            | .ok sig =>
              let price :=
                if 0 < amount_to_sell then
                  expected_sol / ((amount_to_sell : ℚ) / 1000000)
                else trade_info.post_current_price
              .ok (sig, expected_sol, price)
  else
    .error "Sell reason not set - skipping transaction building"

/-- `execute_jupiter_fallback_sell` (src/engine/transaction_retry.rs
lines 147-155). -/
def execute_jupiter_fallback_sell (trade_info : TradeInfoFromToken)
    (sell_config : SwapConfig) (st : AppSellState) (o : JupiterOracles) :
    Except String String :=
  match execute_jupiter_sell trade_info sell_config st o with
  | .ok (sig, _received_sol, _price) => .ok sig
  | .error e => .error e

/-- `execute_sell_with_retry_and_fallback` (src/engine/transaction_retry.rs
lines 158-213). The pair of counters records how many times the primary
(PumpFun) flow and the Jupiter fallback flow were invoked. -/
def execute_sell_with_retry_and_fallback (pump : Pump)
    (trade_info : TradeInfoFromToken) (sell_config : SwapConfig)
    (st : AppSellState) (po : ZeroSlotOracles) (jo : JupiterOracles) :
    Except String SellTransactionResult × Nat × Nat :=
  let jupiter : Except String SellTransactionResult :=
    match execute_jupiter_fallback_sell trade_info sell_config st jo with
    | .ok signature =>
      .ok { success := true, signature := some signature, error := none,
            used_jupiter_fallback := true, attempt_count := MAX_RETRIES + 1 }
    | .error e =>
      .ok { success := false, signature := none,
            error := some ("All sell attempts failed. Last error: " ++ e),
            used_jupiter_fallback := true, attempt_count := MAX_RETRIES + 1 }
  match execute_normal_sell_with_retry pump trade_info sell_config st po with
  | (.ok result, _instrs) =>
    if result.success then (.ok result, 1, 0) else (jupiter, 1, 1)
  | (.error _e, _instrs) => (jupiter, 1, 1)

/-! ## Blockhash cache: src/services/blockhash_processor.rs

Hashes are opaque (`Nat`); `Instant` timestamps are `Nat` values in
seconds, so `instant.elapsed()` at time `now` is `now - t`. -/

/-- `BLOCKHASH_STALENESS_THRESHOLD` (src/services/blockhash_processor.rs
line 24), in seconds. -/
def BLOCKHASH_STALENESS_THRESHOLD : Nat := 10

/-- The periodic-refresh slot of the cache: `LATEST_BLOCKHASH` and
`BLOCKHASH_LAST_UPDATED` (src/services/blockhash_processor.rs lines
14-17). -/
structure BlockhashCache where
  latest_blockhash : Option Nat
  last_updated : Option Nat
deriving DecidableEq

/-- `BlockhashProcessor::update_blockhash` (src/services/
blockhash_processor.rs lines 81-87): store the hash and stamp `now`. -/
def update_blockhash (_st : BlockhashCache) (hash now : Nat) : BlockhashCache :=
  { latest_blockhash := some hash, last_updated := some now }

/-- `BlockhashProcessor::get_latest_blockhash` (src/services/
blockhash_processor.rs lines 90-101): `none` when the last refresh is
older than the staleness threshold, the cached value otherwise. -/
def get_latest_blockhash (st : BlockhashCache) (now : Nat) : Option Nat :=
  match st.last_updated with
  | some t =>
    if now - t > BLOCKHASH_STALENESS_THRESHOLD then none
    else st.latest_blockhash
  | none => st.latest_blockhash

/-- `BlockhashProcessor::get_fresh_blockhash` (src/services/
blockhash_processor.rs lines 104-116): cached value when fresh, otherwise
a synchronous RPC fetch (the oracle) whose success repopulates the slot
and timestamp. Returns the result together with the updated cache. -/
def get_fresh_blockhash (st : BlockhashCache) (now : Nat)
    (rpc : Except String Nat) : Except String Nat × BlockhashCache :=
  match get_latest_blockhash st now with
  | some hash => (.ok hash, st)
  | none =>
    match rpc with
    | .error e => (.error ("Failed to get blockhash from RPC: " ++ e), st)
    | .ok new_hash => (.ok new_hash, update_blockhash st new_hash now)

/-! ## Shared concrete sample values used by witnesses -/

/-- A concrete parsed trade record with the given dex tag, mint "M". -/
def sampleTradeInfo (dex : DexType) : TradeInfoFromToken :=
  { dex_type := dex, slot := 0, signature := "", pool_id := "",
    mint := "M", timestamp := 0, is_buy := false, post_current_price := 0,
    pre_current_price := 0, is_reverse_when_pump_swap := false,
    coin_creator := some "C", sol_change := 0,
    target_transaction_token_change := 0, liquidity := 0,
    virtual_sol_reserves := 1, virtual_token_reserves := 1,
    buy_sell_in_same_tx := false }

/-- A concrete sell-the-whole-position configuration. -/
def sampleSellConfig : SwapConfig :=
  { swap_direction := SwapDirection.Sell, in_type := SwapInType.Pct,
    amount_in := 1, buy_slippage := 0, reverse := false }

/-- Store state holding a pending-sell marker and a cached balance for
mint "M". -/
def sampleStateWithMarker : AppSellState := ⟨["M"], [("M", (5 : ℚ))]⟩

/-- Store state with a cached balance for mint "M" but no pending-sell
marker. -/
def sampleStateNoMarker : AppSellState := ⟨[], [("M", (5 : ℚ))]⟩

/-- A zeroslot environment whose send fails. -/
def sampleZeroSlotFail : ZeroSlotOracles :=
  ⟨RpcTokenAccount.okNone, none, .error "zeroslot down"⟩

/-- A Jupiter environment that quotes 1 SOL and accepts the swap. -/
def sampleJupiterOk : JupiterOracles :=
  ⟨RpcTokenAccount.okNone, .ok (some 1000000000), .ok "SIG"⟩

section CurveLemmas

/-- For `u64`-ranged inputs the saturating guards and the final cast in
`calculate_buy_token_amount` are inert: the function is the plain guarded
floor quotient. -/
theorem calculate_buy_token_amount_eq
    (s S T : Nat) (hs : s < 2 ^ 64) (hS : S < 2 ^ 64) (hT : T < 2 ^ 64) :
    calculate_buy_token_amount s S T =
      if s = 0 ∨ S = 0 ∨ T = 0 then 0 else s * T / (S + s) := by
  unfold calculate_buy_token_amount
  by_cases hg : s = 0 ∨ S = 0 ∨ T = 0
  · simp [hg]
  · push_neg at hg
    obtain ⟨hs0, hS0, hT0⟩ := hg
    have hmul : satMul128 s T = s * T := by
      have hbound : s * T ≤ (2 ^ 64 - 1) * (2 ^ 64 - 1) :=
        Nat.mul_le_mul (by omega) (by omega)
      have hlit : (2 ^ 64 - 1) * (2 ^ 64 - 1) ≤ U128_MAX := by
        unfold U128_MAX; norm_num
      simp [satMul128, Nat.min_eq_left (le_trans hbound hlit)]
    have haddsS : satAdd128 S s = S + s := by
      have h1 : S + s ≤ U128_MAX := by unfold U128_MAX; omega
      simp [satAdd128, Nat.min_eq_left h1]
    have hden : ¬ (S + s = 0) := by omega
    simp only [hs0, hS0, hT0, false_or, or_false, if_false, hmul, haddsS]
    rw [if_neg hden]
    have hq : s * T / (S + s) < 2 ^ 64 := by
      have h1 : s * T / (S + s) ≤ T := by
        calc s * T / (S + s) ≤ (S + s) * T / (S + s) := by
              apply Nat.div_le_div_right
              exact Nat.mul_le_mul_right T (by omega)
          _ = T := Nat.mul_div_cancel_left T (by omega)
      omega
    show castU64 (s * T / (S + s)) = s * T / (S + s)
    simp only [castU64]
    exact Nat.mod_eq_of_lt hq

/-- The sell counterpart of `calculate_buy_token_amount_eq`. -/
theorem calculate_sell_sol_amount_eq
    (t S T : Nat) (ht : t < 2 ^ 64) (hS : S < 2 ^ 64) (hT : T < 2 ^ 64) :
    calculate_sell_sol_amount t S T =
      if t = 0 ∨ S = 0 ∨ T = 0 then 0 else t * S / (T + t) := by
  unfold calculate_sell_sol_amount
  by_cases hg : t = 0 ∨ S = 0 ∨ T = 0
  · simp [hg]
  · push_neg at hg
    obtain ⟨ht0, hS0, hT0⟩ := hg
    have hmul : satMul128 t S = t * S := by
      have hbound : t * S ≤ (2 ^ 64 - 1) * (2 ^ 64 - 1) :=
        Nat.mul_le_mul (by omega) (by omega)
      have hlit : (2 ^ 64 - 1) * (2 ^ 64 - 1) ≤ U128_MAX := by
        unfold U128_MAX; norm_num
      simp [satMul128, Nat.min_eq_left (le_trans hbound hlit)]
    have haddTt : satAdd128 T t = T + t := by
      have h1 : T + t ≤ U128_MAX := by unfold U128_MAX; omega
      simp [satAdd128, Nat.min_eq_left h1]
    have hden : ¬ (T + t = 0) := by omega
    simp only [ht0, hS0, hT0, false_or, or_false, if_false, hmul, haddTt]
    rw [if_neg hden]
    have hq : t * S / (T + t) < 2 ^ 64 := by
      have h1 : t * S / (T + t) ≤ S := by
        calc t * S / (T + t) ≤ (T + t) * S / (T + t) := by
              apply Nat.div_le_div_right
              exact Nat.mul_le_mul_right S (by omega)
          _ = S := Nat.mul_div_cancel_left S (by omega)
      omega
    show castU64 (t * S / (T + t)) = t * S / (T + t)
    simp only [castU64]
    exact Nat.mod_eq_of_lt hq

/-- Core monotonicity of the constant-product output form
`x ↦ x * M / (D + x)` on naturals. -/
theorem div_form_monotone (a b D M : Nat) (hD : 0 < D) (hab : a ≤ b) :
    a * M / (D + a) ≤ b * M / (D + b) := by
  obtain ⟨d, rfl⟩ := Nat.le.dest hab
  rw [Nat.le_div_iff_mul_le (by omega : 0 < D + (a + d))]
  have hq1 : a * M / (D + a) * (D + a) ≤ a * M := Nat.div_mul_le_self _ _
  have hqT : a * M / (D + a) ≤ M := by
    calc a * M / (D + a) ≤ (D + a) * M / (D + a) := by
          apply Nat.div_le_div_right
          exact Nat.mul_le_mul_right M (by omega)
      _ = M := Nat.mul_div_cancel_left M (by omega)
  have expand : a * M / (D + a) * (D + (a + d)) =
      a * M / (D + a) * (D + a) + a * M / (D + a) * d := by ring
  calc a * M / (D + a) * (D + (a + d))
      = a * M / (D + a) * (D + a) + a * M / (D + a) * d := expand
    _ ≤ a * M + M * d := by
        have := Nat.mul_le_mul_right d hqT
        omega
    _ = (a + d) * M := by ring

/-- The constant-product output form is bounded by the opposite reserve. -/
theorem div_form_le (x D M : Nat) (hD : 0 < D + x) : x * M / (D + x) ≤ M := by
  calc x * M / (D + x) ≤ (D + x) * M / (D + x) := by
        apply Nat.div_le_div_right
        exact Nat.mul_le_mul_right M (by omega)
    _ = M := Nat.mul_div_cancel_left M hD

end CurveLemmas

/-- A successful primary (PumpFun) flow always reports `success = true`,
no fallback, and a single attempt. -/
theorem normal_sell_ok_shape (pump : Pump) (ti : TradeInfoFromToken)
    (sc : SwapConfig) (st : AppSellState) (o : ZeroSlotOracles)
    (res : SellTransactionResult) (instrs : List Instruction)
    (h : execute_normal_sell_with_retry pump ti sc st o = (.ok res, instrs)) :
    res.success = true ∧ res.used_jupiter_fallback = false
    ∧ res.attempt_count = 1 := by
  unfold execute_normal_sell_with_retry at h
  by_cases hd : ti.dex_type ≠ DexType.PumpFun
  · rw [if_pos hd] at h
    simp at h
  · rw [if_neg hd] at h
    rcases hp : execute_pumpfun_sell pump ti sc st o with ⟨r, instrs2⟩
    rw [hp] at h
    cases r with
    | ok v =>
      obtain ⟨sig, received_sol, price⟩ := v
      simp at h
      obtain ⟨hres, -⟩ := h
      rw [← hres]
      exact ⟨rfl, rfl, rfl⟩
    | error e =>
      simp at h

/-- C1: the sell orchestrator invokes the primary flow exactly once; a
primary success is returned as-is (success, no fallback flag); a primary
failure triggers exactly one Jupiter fallback attempt, whose success yields
an overall success flagged as fallback and whose failure yields
`success = false` with the last underlying error message retained. -/
theorem sell_orchestrator_two_tier
    (pump : Pump) (ti : TradeInfoFromToken) (sc : SwapConfig)
    (st : AppSellState) (po : ZeroSlotOracles) (jo : JupiterOracles) :
    (execute_sell_with_retry_and_fallback pump ti sc st po jo).2.1 = 1
    ∧ (∀ res instrs,
        execute_normal_sell_with_retry pump ti sc st po = (.ok res, instrs) →
        (execute_sell_with_retry_and_fallback pump ti sc st po jo).2.2 = 0
        ∧ (execute_sell_with_retry_and_fallback pump ti sc st po jo).1 = .ok res
        ∧ res.success = true ∧ res.used_jupiter_fallback = false)
    ∧ (∀ e instrs,
        execute_normal_sell_with_retry pump ti sc st po = (.error e, instrs) →
        (execute_sell_with_retry_and_fallback pump ti sc st po jo).2.2 = 1
        ∧ (∀ sig received_sol price,
            execute_jupiter_sell ti sc st jo = .ok (sig, received_sol, price) →
            (execute_sell_with_retry_and_fallback pump ti sc st po jo).1
              = .ok { success := true, signature := some sig, error := none,
                      used_jupiter_fallback := true,
                      attempt_count := MAX_RETRIES + 1 })
        ∧ (∀ e2, execute_jupiter_sell ti sc st jo = .error e2 →
            (execute_sell_with_retry_and_fallback pump ti sc st po jo).1
              = .ok { success := false, signature := none,
                      error := some ("All sell attempts failed. Last error: " ++ e2),
                      used_jupiter_fallback := true,
                      attempt_count := MAX_RETRIES + 1 })) := by
  refine ⟨?_, ?_, ?_⟩
  · unfold execute_sell_with_retry_and_fallback
    rcases h1 : execute_normal_sell_with_retry pump ti sc st po with ⟨r, instrs⟩
    cases r with
    | ok res =>
      by_cases hs : res.success
      · simp [hs]
      · simp [hs]
    | error e => simp
  · intro res instrs h
    obtain ⟨hsucc, hfb, -⟩ := normal_sell_ok_shape pump ti sc st po res instrs h
    unfold execute_sell_with_retry_and_fallback
    rw [h]
    simp [hsucc, hfb]
  · intro e instrs h
    refine ⟨?_, ?_, ?_⟩
    · unfold execute_sell_with_retry_and_fallback
      rw [h]
    · intro sig received_sol price hj
      unfold execute_sell_with_retry_and_fallback
      rw [h]
      simp [execute_jupiter_fallback_sell, hj]
    · intro e2 hj
      unfold execute_sell_with_retry_and_fallback
      rw [h]
      simp [execute_jupiter_fallback_sell, hj]

/-- Witness for `sell_orchestrator_two_tier`: a non-PumpFun token makes the
primary flow fail, the Jupiter fallback succeeds, and the overall result is
a success flagged as fallback. -/
theorem sell_orchestrator_two_tier_witness :
    (execute_sell_with_retry_and_fallback ⟨"OWNER"⟩
        (sampleTradeInfo DexType.PumpSwap) sampleSellConfig
        sampleStateWithMarker sampleZeroSlotFail sampleJupiterOk).1
      = .ok { success := true, signature := some "SIG", error := none,
              used_jupiter_fallback := true, attempt_count := MAX_RETRIES + 1 } := by
  have hj : execute_jupiter_sell (sampleTradeInfo DexType.PumpSwap)
      sampleSellConfig sampleStateWithMarker sampleJupiterOk
      = .ok ("SIG", 1, 1 / 5) := by
    simp [execute_jupiter_sell, sampleTradeInfo, sampleSellConfig,
      sampleStateWithMarker, sampleJupiterOk, f64ToU64, U64_MAX, List.lookup]
    norm_num
    rw [show Int.toNat 5000000 = 5000000 from rfl]
    norm_num
  exact ((sell_orchestrator_two_tier ⟨"OWNER"⟩
    (sampleTradeInfo DexType.PumpSwap) sampleSellConfig
    sampleStateWithMarker sampleZeroSlotFail sampleJupiterOk).2.2
    "Not a PumpFun token - skipping normal sell" [] rfl).2.1
    "SIG" 1 (1 / 5) hj

/-- C2: with no pending-sell marker in `SELL_REASONS` for the mint, both
the primary (PumpFun) and the fallback (Jupiter) sell paths fail
immediately with the precondition-violation error, and on the PumpFun path
zero instructions are constructed. -/
theorem sell_gate_requires_marker
    (pump : Pump) (ti : TradeInfoFromToken) (sc : SwapConfig)
    (st : AppSellState) (po : ZeroSlotOracles) (jo : JupiterOracles)
    (h : st.sell_reasons.contains ti.mint = false) :
    execute_pumpfun_sell pump ti sc st po
      = (.error "Sell reason not set - skipping transaction building", [])
    ∧ execute_jupiter_sell ti sc st jo
      = .error "Sell reason not set - skipping transaction building" := by
  constructor
  · unfold execute_pumpfun_sell
    rw [h]
    simp
  · unfold execute_jupiter_sell
    rw [h]
    simp

/-- Witness for `sell_gate_requires_marker` on an empty marker store. -/
theorem sell_gate_requires_marker_witness :
    execute_pumpfun_sell ⟨"OWNER"⟩ (sampleTradeInfo DexType.PumpFun)
        sampleSellConfig sampleStateNoMarker sampleZeroSlotFail
      = (.error "Sell reason not set - skipping transaction building", [])
    ∧ execute_jupiter_sell (sampleTradeInfo DexType.PumpFun)
        sampleSellConfig sampleStateNoMarker sampleJupiterOk
      = .error "Sell reason not set - skipping transaction building" := by
  exact sell_gate_requires_marker ⟨"OWNER"⟩ (sampleTradeInfo DexType.PumpFun)
    sampleSellConfig sampleStateNoMarker sampleZeroSlotFail sampleJupiterOk rfl

/-- C4: the wire decoder is total — every buffer whose length is not one of
368, 416, 274, 275 decodes to `none`, and a fixed-width field read whose
range extends past the buffer end yields `none` (propagated to the whole
record by the parser's monadic binds). -/
theorem wire_decoder_totality
    (txn : SubscribeUpdateTransaction) (buffer : List Byte)
    (hlen : buffer.length ≠ 368 ∧ buffer.length ≠ 416 ∧
      buffer.length ≠ 274 ∧ buffer.length ≠ 275) :
    parse_transaction_data txn buffer = none
    ∧ (∀ off, off + 8 > buffer.length → parse_u64 buffer off = none)
    ∧ (∀ off, off + 32 > buffer.length → parse_public_key buffer off = none) := by
  obtain ⟨h1, h2, h3, h4⟩ := hlen
  refine ⟨?_, ?_, ?_⟩
  · simp [parse_transaction_data, h1, h2, h3, h4]
  · intro off h
    simp [parse_u64, h]
  · intro off h
    simp [parse_public_key, h]

/-- Witness for `wire_decoder_totality` on the empty buffer. -/
theorem wire_decoder_totality_witness :
    parse_transaction_data ⟨0, none⟩ [] = none
    ∧ parse_u64 [] 0 = none
    ∧ parse_public_key [] 0 = none := by
  have h := wire_decoder_totality ⟨0, none⟩ [] (by simp)
  exact ⟨h.1, h.2.1 0 (by simp), h.2.2 0 (by simp)⟩

/-- C10: a pooled-liquidity buffer (length 368 or 416) always decodes, and
the record carries `slot = 0`, an empty signature and
`buy_sell_in_same_tx = false` regardless of the transaction's slot and
logs; a bonding-curve buffer (length 274 or 275) always decodes, carries
the transaction's slot, and computes the co-occurrence flag from the log
messages. -/
theorem pooled_family_constant_fields
    (txn : SubscribeUpdateTransaction) (buffer : List Byte) :
    ((buffer.length = 368 ∨ buffer.length = 416) →
      ∃ r, parse_transaction_data txn buffer = some r
        ∧ r.slot = 0 ∧ r.signature = "" ∧ r.buy_sell_in_same_tx = false)
    ∧ ((buffer.length = 274 ∨ buffer.length = 275) →
      ∃ r, parse_transaction_data txn buffer = some r
        ∧ r.slot = txn.slot
        ∧ r.buy_sell_in_same_tx
            = (has_buy_instruction txn && has_sell_instruction txn)) := by
  constructor
  · intro h
    have hge : 368 ≤ buffer.length := by rcases h with h | h <;> omega
    simp only [parse_transaction_data, if_pos h]
    simp only [parse_u64, parse_public_key]
    have g16 : ¬ (16 + 8 > buffer.length) := by omega
    have g24 : ¬ (24 + 8 > buffer.length) := by omega
    have g56 : ¬ (56 + 8 > buffer.length) := by omega
    have g64 : ¬ (64 + 8 > buffer.length) := by omega
    have g72 : ¬ (72 + 8 > buffer.length) := by omega
    have g128 : ¬ (128 + 32 > buffer.length) := by omega
    have g320 : ¬ (320 + 32 > buffer.length) := by omega
    rw [if_neg g16, if_neg g24, if_neg g56, if_neg g64, if_neg g72,
      if_neg g128, if_neg g320]
    exact ⟨_, rfl, rfl, rfl, rfl⟩
  · intro h
    have hge : 274 ≤ buffer.length := by rcases h with h | h <;> omega
    have hne : ¬ (buffer.length = 368 ∨ buffer.length = 416) := by
      rcases h with h | h <;> omega
    have h64 : 64 < buffer.length := by omega
    have hb : buffer.get? 64 = some (buffer.get ⟨64, h64⟩) := List.get?_eq_get h64
    simp only [parse_transaction_data, if_neg hne, if_pos h]
    simp only [parse_u64, parse_public_key, hb]
    have k16 : ¬ (16 + 32 > buffer.length) := by omega
    have k48 : ¬ (48 + 8 > buffer.length) := by omega
    have k56 : ¬ (56 + 8 > buffer.length) := by omega
    have k97 : ¬ (97 + 8 > buffer.length) := by omega
    have k105 : ¬ (105 + 8 > buffer.length) := by omega
    have k113 : ¬ (113 + 8 > buffer.length) := by omega
    have k121 : ¬ (121 + 8 > buffer.length) := by omega
    have k185 : ¬ (185 + 32 > buffer.length) := by omega
    rw [if_neg k16, if_neg k48, if_neg k56, if_neg k97, if_neg k105,
      if_neg k113, if_neg k121, if_neg k185]
    exact ⟨_, rfl, rfl, rfl⟩

/-- Witness for `pooled_family_constant_fields` on concrete all-zero
buffers of lengths 368 and 274. -/
theorem pooled_family_constant_fields_witness :
    (∃ r, parse_transaction_data ⟨5, none⟩ (List.replicate 368 (0 : Byte)) = some r
      ∧ r.slot = 0 ∧ r.signature = "" ∧ r.buy_sell_in_same_tx = false)
    ∧ (∃ r, parse_transaction_data ⟨5, none⟩ (List.replicate 274 (0 : Byte)) = some r
      ∧ r.slot = 5
      ∧ r.buy_sell_in_same_tx
          = (has_buy_instruction ⟨5, none⟩ && has_sell_instruction ⟨5, none⟩)) := by
  constructor
  · exact (pooled_family_constant_fields ⟨5, none⟩ _).1
      (Or.inl (by rw [List.length_replicate]))
  · exact (pooled_family_constant_fields ⟨5, none⟩ _).2
      (Or.inl (by rw [List.length_replicate]))

/-- C3: for all `u64` inputs, `calculate_buy_token_amount` is the guarded
128-bit floor quotient `sol_in * virtual_token / (virtual_sol + sol_in)`
returning 0 when any input is 0, `calculate_sell_sol_amount` is
`token_in * virtual_sol / (virtual_token + token_in)` with the same
zero-guards, and `calculate_price_from_virtual_reserves` is
`virtual_sol / virtual_token / 1000` returning 0 when `virtual_token = 0`. -/
theorem curve_calculator_formulas
    (s t S T : Nat) (hs : s < 2 ^ 64) (ht : t < 2 ^ 64)
    (hS : S < 2 ^ 64) (hT : T < 2 ^ 64) :
    ((s = 0 ∨ S = 0 ∨ T = 0) → calculate_buy_token_amount s S T = 0)
    ∧ (s ≠ 0 → S ≠ 0 → T ≠ 0 →
        calculate_buy_token_amount s S T = s * T / (S + s))
    ∧ ((t = 0 ∨ S = 0 ∨ T = 0) → calculate_sell_sol_amount t S T = 0)
    ∧ (t ≠ 0 → S ≠ 0 → T ≠ 0 →
        calculate_sell_sol_amount t S T = t * S / (T + t))
    ∧ (T = 0 → calculate_price_from_virtual_reserves S T = 0)
    ∧ (T ≠ 0 →
        calculate_price_from_virtual_reserves S T = (S : ℚ) / (T : ℚ) / 1000) := by
  refine ⟨?_, ?_, ?_, ?_, ?_, ?_⟩
  · intro hg
    rw [calculate_buy_token_amount_eq s S T hs hS hT, if_pos hg]
  · intro h1 h2 h3
    rw [calculate_buy_token_amount_eq s S T hs hS hT,
      if_neg (by simp [h1, h2, h3])]
  · intro hg
    rw [calculate_sell_sol_amount_eq t S T ht hS hT, if_pos hg]
  · intro h1 h2 h3
    rw [calculate_sell_sol_amount_eq t S T ht hS hT,
      if_neg (by simp [h1, h2, h3])]
  · intro h
    simp [calculate_price_from_virtual_reserves, h]
  · intro h
    simp [calculate_price_from_virtual_reserves, h]

/-- Witness for `curve_calculator_formulas` at concrete inputs. -/
theorem curve_calculator_formulas_witness :
    calculate_buy_token_amount 2 5 7 = 2 * 7 / (5 + 2)
    ∧ calculate_sell_sol_amount 3 5 7 = 3 * 5 / (7 + 3)
    ∧ calculate_price_from_virtual_reserves 5 7 = (5 : ℚ) / (7 : ℚ) / 1000 := by
  have h := curve_calculator_formulas 2 3 5 7
    (by norm_num) (by norm_num) (by norm_num) (by norm_num)
  exact ⟨h.2.1 (by norm_num) (by norm_num) (by norm_num),
    h.2.2.2.1 (by norm_num) (by norm_num) (by norm_num),
    h.2.2.2.2.2 (by norm_num)⟩

/-- C5: holding the reserves fixed, `calculate_buy_token_amount` is
monotonically non-decreasing in the input amount and so is
`calculate_sell_sol_amount`; both are bounded by the opposite virtual
reserve (so they fit in `u64` and cannot overflow), for every `u64` input
including `u64::MAX`. -/
theorem curve_outputs_monotone_and_bounded
    (a b S T : Nat) (ha : a < 2 ^ 64) (hb : b < 2 ^ 64)
    (hS : S < 2 ^ 64) (hT : T < 2 ^ 64) :
    (a ≤ b → calculate_buy_token_amount a S T ≤ calculate_buy_token_amount b S T)
    ∧ (a ≤ b → calculate_sell_sol_amount a S T ≤ calculate_sell_sol_amount b S T)
    ∧ calculate_buy_token_amount a S T ≤ T
    ∧ calculate_sell_sol_amount a S T ≤ S := by
  rw [calculate_buy_token_amount_eq a S T ha hS hT,
    calculate_buy_token_amount_eq b S T hb hS hT,
    calculate_sell_sol_amount_eq a S T ha hS hT,
    calculate_sell_sol_amount_eq b S T hb hS hT]
  refine ⟨?_, ?_, ?_, ?_⟩
  · intro hab
    by_cases hST : S = 0 ∨ T = 0
    · rcases hST with h | h <;> simp [h]
    · push_neg at hST
      obtain ⟨hS0, hT0⟩ := hST
      by_cases ha0 : a = 0
      · simp [ha0]
      · have hb0 : b ≠ 0 := by omega
        rw [if_neg (by simp [ha0, hS0, hT0]), if_neg (by simp [hb0, hS0, hT0])]
        exact div_form_monotone a b S T (by omega) hab
  · intro hab
    by_cases hST : S = 0 ∨ T = 0
    · rcases hST with h | h <;> simp [h]
    · push_neg at hST
      obtain ⟨hS0, hT0⟩ := hST
      by_cases ha0 : a = 0
      · simp [ha0]
      · have hb0 : b ≠ 0 := by omega
        rw [if_neg (by simp [ha0, hS0, hT0]), if_neg (by simp [hb0, hS0, hT0])]
        exact div_form_monotone a b T S (by omega) hab
  · by_cases hg : a = 0 ∨ S = 0 ∨ T = 0
    · simp [hg]
    · push_neg at hg
      rw [if_neg (by simp [hg.1, hg.2.1, hg.2.2])]
      exact div_form_le a S T (by omega)
  · by_cases hg : a = 0 ∨ S = 0 ∨ T = 0
    · simp [hg]
    · push_neg at hg
      rw [if_neg (by simp [hg.1, hg.2.1, hg.2.2])]
      exact div_form_le a T S (by omega)

/-- Witness for `curve_outputs_monotone_and_bounded`, exercised at
`u64::MAX` inputs as the claim demands. -/
theorem curve_outputs_monotone_and_bounded_witness :
    (calculate_buy_token_amount 1000 (2 ^ 64 - 1) (2 ^ 64 - 1)
      ≤ calculate_buy_token_amount (2 ^ 64 - 1) (2 ^ 64 - 1) (2 ^ 64 - 1))
    ∧ (calculate_sell_sol_amount 1000 (2 ^ 64 - 1) (2 ^ 64 - 1)
      ≤ calculate_sell_sol_amount (2 ^ 64 - 1) (2 ^ 64 - 1) (2 ^ 64 - 1))
    ∧ calculate_buy_token_amount (2 ^ 64 - 1) (2 ^ 64 - 1) (2 ^ 64 - 1) ≤ 2 ^ 64 - 1
    ∧ calculate_sell_sol_amount (2 ^ 64 - 1) (2 ^ 64 - 1) (2 ^ 64 - 1) ≤ 2 ^ 64 - 1 := by
  have h := curve_outputs_monotone_and_bounded 1000 (2 ^ 64 - 1) (2 ^ 64 - 1) (2 ^ 64 - 1)
    (by norm_num) (by norm_num) (by norm_num) (by norm_num)
  have h2 := curve_outputs_monotone_and_bounded (2 ^ 64 - 1) (2 ^ 64 - 1) (2 ^ 64 - 1)
    (2 ^ 64 - 1) (by norm_num) (by norm_num) (by norm_num) (by norm_num)
  exact ⟨h.1 (by norm_num), h.2.1 (by norm_num), h2.2.2.1, h2.2.2.2⟩

/-- C8 counterexample: a buy of 1,000,000,000 native-units against virtual
reserves (30,000,000,000 ; 1,073,000,000,000,000) yields
34,612,903,225,806 tokens — roughly 1000 times the figure 34,612,903,225
stated by the claim, far outside integer floor-division tolerance. -/
theorem buy_scenario_counterexample :
    calculate_buy_token_amount 1000000000 30000000000 1073000000000000
      = 34612903225806
    ∧ 34612903225 + 1 < 34612903225806 := by
  constructor
  · rfl
  · norm_num

/-- C6: sell-quantity resolution priority — a cached `TOKEN_HOLDINGS`
balance is used as-is and makes the result independent of the RPC oracle
(no live inquiry observable); with no cache entry a successful live read
supplies the quantity; a live read reporting not-found or an error falls
back to a second cache read and, the entry still being absent, the
resolution errors; an error arises only when the cache entry is absent and
the live read produced no quantity. A resolution error is returned
verbatim by the sell build. -/
theorem sell_quantity_priority
    (pump : Pump) (holdings : List (String × ℚ)) (rpc rpc2 : RpcTokenAccount)
    (mint : String) (sc : SwapConfig) :
    (∀ c, holdings.lookup mint = some c →
      resolve_sell_token_amount holdings rpc mint sc
          = .ok (sell_amount_from_cached c sc)
      ∧ resolve_sell_token_amount holdings rpc mint sc
          = resolve_sell_token_amount holdings rpc2 mint sc)
    ∧ (holdings.lookup mint = none → ∀ v, rpc = .okSome (some v) →
        resolve_sell_token_amount holdings rpc mint sc
          = .ok (sell_amount_from_rpc v sc))
    ∧ (holdings.lookup mint = none →
        (rpc = .okNone ∨ ∃ e, rpc = .err e) →
        ∃ msg, resolve_sell_token_amount holdings rpc mint sc = .error msg)
    ∧ (∀ msg, resolve_sell_token_amount holdings rpc mint sc = .error msg →
        holdings.lookup mint = none ∧ ∀ v, rpc ≠ .okSome (some v))
    ∧ (∀ ti : TradeInfoFromToken, ti.mint = mint →
        sc.swap_direction = SwapDirection.Sell →
        (∃ cr, ti.coin_creator = some cr) →
        ∀ e, resolve_sell_token_amount holdings rpc mint sc = .error e →
          build_swap_from_parsed_data pump ti sc holdings rpc = .error e) := by
  refine ⟨?_, ?_, ?_, ?_, ?_⟩
  · intro c h
    constructor
    · simp [resolve_sell_token_amount, h]
    · simp [resolve_sell_token_amount, h]
  · intro h v hv
    subst hv
    simp [resolve_sell_token_amount, h]
  · intro h hor
    rcases hor with h2 | ⟨e, h2⟩ <;> subst h2
    · exact ⟨"Token account does not exist for mint " ++ mint
        ++ " and not in TOKEN_HOLDINGS", by simp [resolve_sell_token_amount, h]⟩
    · exact ⟨"Failed to get token account balance: " ++ e
        ++ " and not in TOKEN_HOLDINGS", by simp [resolve_sell_token_amount, h]⟩
  · intro msg h
    rcases hl : holdings.lookup mint with _ | c
    · refine ⟨rfl, ?_⟩
      intro v hv
      subst hv
      simp [resolve_sell_token_amount, hl] at h
    · exfalso
      simp [resolve_sell_token_amount, hl] at h
  · intro ti hmint hdir hcr e he
    obtain ⟨cr, hcr⟩ := hcr
    subst hmint
    simp [build_swap_from_parsed_data, hcr, hdir, he]

/-- Witness for `sell_quantity_priority`: a cached balance resolves from
the cache, and an empty cache with a not-found live read errors. -/
theorem sell_quantity_priority_witness :
    resolve_sell_token_amount [("M", (2 : ℚ))] RpcTokenAccount.okNone "M"
        sampleSellConfig
      = .ok (sell_amount_from_cached 2 sampleSellConfig)
    ∧ (∃ msg, resolve_sell_token_amount [] RpcTokenAccount.okNone "M"
        sampleSellConfig = .error msg) := by
  constructor
  · exact ((sell_quantity_priority ⟨"OWNER"⟩ [("M", 2)] RpcTokenAccount.okNone
      RpcTokenAccount.okNone "M" sampleSellConfig).1 2 rfl).1
  · exact (sell_quantity_priority ⟨"OWNER"⟩ [] RpcTokenAccount.okNone
      RpcTokenAccount.okNone "M" sampleSellConfig).2.2.1 rfl (Or.inl rfl)

/-- C7 counterexample: a buy build whose computed trade amount is zero
(zero `amount_in` against live reserves) succeeds — no reportable error —
returning only the account-creation instruction, with no swap
instruction. -/
theorem build_zero_amount_counterexample :
    calculate_buy_token_amount (ui_amount_to_amount 0 9) 30000000000 1073000000000000 = 0
    ∧ build_swap_from_parsed_data ⟨"OWNER"⟩
        { dex_type := DexType.PumpFun, slot := 0, signature := "", pool_id := "",
          mint := "MINT", timestamp := 0, is_buy := true, post_current_price := 0,
          pre_current_price := 0, is_reverse_when_pump_swap := false,
          coin_creator := some "CREATOR", sol_change := 0,
          target_transaction_token_change := 0, liquidity := 0,
          virtual_sol_reserves := 30000000000,
          virtual_token_reserves := 1073000000000000, buy_sell_in_same_tx := false }
        { swap_direction := SwapDirection.Buy, in_type := SwapInType.Qty,
          amount_in := 0, buy_slippage := 100, reverse := false }
        [] RpcTokenAccount.okNone
      = .ok ([Instruction.createAssociatedTokenAccountIdempotent "OWNER" "MINT"], 0) := by
  have hamt : ui_amount_to_amount 0 9 = 0 := by
    simp [ui_amount_to_amount, f64ToU64]
  have hcalc : calculate_buy_token_amount 0 30000000000 1073000000000000 = 0 := by
    simp [calculate_buy_token_amount]
  constructor
  · rw [hamt, hcalc]
  · simp [build_swap_from_parsed_data, hamt, hcalc]

/-- C7 amended: on the sell direction a zero resolved amount makes the
build fail with the empty-instruction-list error; on the buy direction the
build (with a creator present) always succeeds with the idempotent
account-creation instruction first — in particular a zero computed buy
amount succeeds with only that instruction and no swap instruction — and
every successful build returns a non-empty instruction list. -/
theorem build_zero_amount_policy
    (pump : Pump) (ti : TradeInfoFromToken) (sc : SwapConfig)
    (holdings : List (String × ℚ)) (rpc : RpcTokenAccount) (c : String)
    (hc : ti.coin_creator = some c) :
    (sc.swap_direction = SwapDirection.Sell →
      resolve_sell_token_amount holdings rpc ti.mint sc = .ok 0 →
      build_swap_from_parsed_data pump ti sc holdings rpc
        = .error "Instructions is empty, no txn required.")
    ∧ (sc.swap_direction = SwapDirection.Buy →
        ∃ rest price, build_swap_from_parsed_data pump ti sc holdings rpc
          = .ok (Instruction.createAssociatedTokenAccountIdempotent
              pump.owner ti.mint :: rest, price))
    ∧ (sc.swap_direction = SwapDirection.Buy →
        calculate_buy_token_amount (ui_amount_to_amount sc.amount_in 9)
          ti.virtual_sol_reserves ti.virtual_token_reserves = 0 →
        build_swap_from_parsed_data pump ti sc holdings rpc
          = .ok ([Instruction.createAssociatedTokenAccountIdempotent
              pump.owner ti.mint], ti.post_current_price))
    ∧ (∀ instrs price, build_swap_from_parsed_data pump ti sc holdings rpc
        = .ok (instrs, price) → instrs ≠ []) := by
  refine ⟨?_, ?_, ?_, ?_⟩
  · intro hdir hres
    simp [build_swap_from_parsed_data, hc, hdir, hres]
  · intro hdir
    by_cases hz : calculate_buy_token_amount (ui_amount_to_amount sc.amount_in 9)
        ti.virtual_sol_reserves ti.virtual_token_reserves = 0
    · refine ⟨[], ti.post_current_price, ?_⟩
      simp [build_swap_from_parsed_data, hc, hdir, hz]
    · refine ⟨[Instruction.pumpSwap PUMP_BUY_METHOD
        (calculate_buy_token_amount (ui_amount_to_amount sc.amount_in 9)
          ti.virtual_sol_reserves ti.virtual_token_reserves)
        (max_amount_with_slippage (ui_amount_to_amount sc.amount_in 9)
          sc.buy_slippage)], ti.post_current_price, ?_⟩
      simp [build_swap_from_parsed_data, hc, hdir, Nat.pos_of_ne_zero hz]
  · intro hdir hz
    simp [build_swap_from_parsed_data, hc, hdir, hz]
  · intro instrs price h
    by_cases hnil : instrs = []
    · subst hnil
      exfalso
      unfold build_swap_from_parsed_data at h
      rw [hc] at h
      rcases hdir : sc.swap_direction with _ | _
      · simp [hdir] at h
      · rcases hres : resolve_sell_token_amount holdings rpc ti.mint sc with e | amt
        · simp [hdir, hres] at h
        · by_cases hamt : amt = 0
          · simp [hdir, hres, hamt] at h
          · simp [hdir, hres, hamt] at h
    · exact hnil

/-- Witness for `build_zero_amount_policy`: a sell of a zero quantity
(Qty 0 against a cached holding) errors, and a buy always leads with the
account-creation instruction. -/
theorem build_zero_amount_policy_witness :
    build_swap_from_parsed_data ⟨"OWNER"⟩ (sampleTradeInfo DexType.PumpFun)
        { swap_direction := SwapDirection.Sell, in_type := SwapInType.Qty,
          amount_in := 0, buy_slippage := 0, reverse := false }
        [("M", (2 : ℚ))] RpcTokenAccount.okNone
      = .error "Instructions is empty, no txn required."
    ∧ (∃ rest price, build_swap_from_parsed_data ⟨"OWNER"⟩
        (sampleTradeInfo DexType.PumpFun)
        { swap_direction := SwapDirection.Buy, in_type := SwapInType.Qty,
          amount_in := 0, buy_slippage := 0, reverse := false }
        [] RpcTokenAccount.okNone
      = .ok (Instruction.createAssociatedTokenAccountIdempotent
          "OWNER" "M" :: rest, price)) := by
  constructor
  · refine (build_zero_amount_policy ⟨"OWNER"⟩ (sampleTradeInfo DexType.PumpFun)
      _ [("M", 2)] RpcTokenAccount.okNone "C" rfl).1 rfl ?_
    have : ui_amount_to_amount 0 6 = 0 := by
      simp [ui_amount_to_amount, f64ToU64]
    simp [resolve_sell_token_amount, sell_amount_from_cached, List.lookup,
      sampleTradeInfo, this]
  · exact (build_zero_amount_policy ⟨"OWNER"⟩ (sampleTradeInfo DexType.PumpFun)
      _ [] RpcTokenAccount.okNone "C" rfl).2.1 rfl

/-- C8 amended: the scenario buy of 1,000,000,000 native-units against
virtual reserves (30,000,000,000 ; 1,073,000,000,000,000) yields
34,612,903,225,806 tokens (the spec's figure 34,612,903,225 is a
thousandfold understatement), and the build returns the account-creation
instruction followed by the swap instruction. -/
theorem buy_scenario_amended :
    calculate_buy_token_amount 1000000000 30000000000 1073000000000000
      = 34612903225806
    ∧ build_swap_from_parsed_data ⟨"OWNER"⟩
        { dex_type := DexType.PumpFun, slot := 0, signature := "", pool_id := "",
          mint := "MINT", timestamp := 0, is_buy := true, post_current_price := 0,
          pre_current_price := 0, is_reverse_when_pump_swap := false,
          coin_creator := some "CREATOR", sol_change := 0,
          target_transaction_token_change := 0, liquidity := 0,
          virtual_sol_reserves := 30000000000,
          virtual_token_reserves := 1073000000000000, buy_sell_in_same_tx := false }
        { swap_direction := SwapDirection.Buy, in_type := SwapInType.Qty,
          amount_in := 1, buy_slippage := 0, reverse := false }
        [] RpcTokenAccount.okNone
      = .ok ([Instruction.createAssociatedTokenAccountIdempotent "OWNER" "MINT",
              Instruction.pumpSwap PUMP_BUY_METHOD 34612903225806 1000000000], 0) := by
  have hamt : ui_amount_to_amount 1 9 = 1000000000 := by
    simp [ui_amount_to_amount, f64ToU64, U64_MAX]
    rw [show ((10 : ℚ) ^ 9) = ((1000000000 : ℤ) : ℚ) by norm_num]
    rw [Int.floor_intCast]
    rfl
  have hcalc : calculate_buy_token_amount 1000000000 30000000000 1073000000000000
      = 34612903225806 := rfl
  have hms : max_amount_with_slippage 1000000000 0 = 1000000000 := rfl
  constructor
  · exact hcalc
  · simp [build_swap_from_parsed_data, hamt, hcalc, hms]

/-- C9: the blockhash cache never serves a stale value — under the
write-together invariant (a cached hash implies a timestamp),
`get_latest_blockhash` returns a hash only when its last refresh is within
the staleness threshold; `get_fresh_blockhash` returns the cached hash
exactly when it is fresh, and otherwise performs the synchronous RPC
fetch, repopulating the slot and timestamp on success. -/
theorem blockhash_cache_freshness
    (st : BlockhashCache) (now : Nat) (rpc : Except String Nat)
    (hinv : st.latest_blockhash.isSome → st.last_updated.isSome) :
    (∀ h, get_latest_blockhash st now = some h →
      ∃ t, st.last_updated = some t
        ∧ now - t ≤ BLOCKHASH_STALENESS_THRESHOLD
        ∧ st.latest_blockhash = some h)
    ∧ (∀ h, get_latest_blockhash st now = some h →
        get_fresh_blockhash st now rpc = (.ok h, st))
    ∧ (get_latest_blockhash st now = none → ∀ h, rpc = .ok h →
        get_fresh_blockhash st now rpc
          = (.ok h, { latest_blockhash := some h, last_updated := some now }))
    ∧ (get_latest_blockhash st now = none → ∀ e, rpc = .error e →
        get_fresh_blockhash st now rpc
          = (.error ("Failed to get blockhash from RPC: " ++ e), st)) := by
  have hsome : ∀ t, st.last_updated = some t →
      get_latest_blockhash st now
        = if now - t > BLOCKHASH_STALENESS_THRESHOLD then none
          else st.latest_blockhash := by
    intro t hu
    unfold get_latest_blockhash
    rw [hu]
  refine ⟨?_, ?_, ?_, ?_⟩
  · intro h hg
    rcases hu : st.last_updated with _ | t
    · have h1 : get_latest_blockhash st now = st.latest_blockhash := by
        unfold get_latest_blockhash
        rw [hu]
      rw [h1] at hg
      have : st.last_updated.isSome := hinv (by simp [hg])
      rw [hu] at this
      simp at this
    · rw [hsome t hu] at hg
      by_cases hstale : now - t > BLOCKHASH_STALENESS_THRESHOLD
      · rw [if_pos hstale] at hg
        simp at hg
      · rw [if_neg hstale] at hg
        exact ⟨t, rfl, by omega, hg⟩
  · intro h hg
    unfold get_fresh_blockhash
    rw [hg]
  · intro hg h hr
    subst hr
    unfold get_fresh_blockhash
    rw [hg]
    rfl
  · intro hg e hr
    subst hr
    unfold get_fresh_blockhash
    rw [hg]

/-- Witness for `blockhash_cache_freshness`: a 5-second-old hash is served
from the cache; a 100-second-old hash is not, and the RPC result
repopulates the slot and timestamp. -/
theorem blockhash_cache_freshness_witness :
    get_fresh_blockhash ⟨some 42, some 100⟩ 105 (.ok 7) = (.ok 42, ⟨some 42, some 100⟩)
    ∧ get_fresh_blockhash ⟨some 42, some 100⟩ 200 (.ok 7)
        = (.ok 7, ⟨some 7, some 200⟩) := by
  constructor
  · exact (blockhash_cache_freshness ⟨some 42, some 100⟩ 105 (.ok 7)
      (fun _ => rfl)).2.1 42 rfl
  · exact (blockhash_cache_freshness ⟨some 42, some 100⟩ 200 (.ok 7)
      (fun _ => rfl)).2.2.1 rfl 7 rfl

end Sniper
